import Mathlib

/-!
Verification of the `deafrica-scripts` repository: a shallow embedding of
`src/deafrica/monitoring/landsat_gap_report.py` and `src/deafrica/data/chirps.py`
into Lean 4, with theorems settling the specification claims.
-/

namespace DeAfrica

/-! ## String helpers mirroring Python built-ins -/

/-- Python `str.zfill(width)`: left-pad with ASCII '0' to at least `width`
characters; a leading `+`/`-` sign stays in front of the inserted zeros. -/
def zfill (s : String) (width : Nat) : String :=
  let pad := List.replicate (width - s.length) '0'
  match s.data with
  | c :: rest => if c = '+' ∨ c = '-' then ⟨c :: (pad ++ rest)⟩ else ⟨pad ++ s.data⟩
  | [] => ⟨pad⟩

/-- Python `str.upper()` (ASCII; all strings in this code base are ASCII). -/
def pyUpper (s : String) : String := ⟨s.data.map Char.toUpper⟩

/-- Python `str.lower()` (ASCII). -/
def pyLower (s : String) : String := ⟨s.data.map Char.toLower⟩

/-- Python `str.replace("_", "-")`: single-character pattern, so a plain map. -/
def pyReplaceUnderscore (s : String) : String :=
  ⟨s.data.map (fun c => if c = '_' then '-' else c)⟩

/-- Python `int(s)` on an unsigned decimal-digit string: the parsed natural
number, or `none` when the string is not a non-empty run of ASCII decimal
digits (Python raises `ValueError` there, which aborts the surrounding
computation). -/
def pyInt (s : String) : Option Nat :=
  if s.data ≠ [] ∧ s.data.all (fun c => c.isDigit) then
    some (s.data.foldl (fun a c => 10 * a + (c.toNat - 48)) 0)
  else none

/-- Python `str.rstrip("/")`: drop all trailing `/` characters. -/
def rstripSlash (s : String) : String :=
  ⟨(s.data.reverse.dropWhile (fun c => c = '/')).reverse⟩

/-- Python `needle in hay` on strings: substring containment. -/
def pyContains (needle hay : String) : Bool := decide (needle.data <:+: hay.data)

/-- `urlpath.URL.__truediv__` followed by `str`: join a root URL and a relative
path with a single `/` (the root's trailing slashes, if any, are collapsed). -/
def urlJoin (root path : String) : String := rstripSlash root ++ "/" ++ path

/-! ## landsat_gap_report.py — bulk-file rows and the expected-set filter -/

/-- A row of the USGS bulk CSV as produced by `csv.DictReader`: each field the
filter or path builder touches, `none` when the column is absent from the file
or the row (`row.get(...)`/`row[...]` then yields `None`/raises). -/
structure CsvRow where
  satellite : Option String
  dayNightIndicator : Option String
  wrsPath : Option String
  wrsRow : Option String
  sensorIdentifier : Option String
  dateAcquired : Option String
  displayId : Option String
deriving DecidableEq, Repr

/-- The integer grid-cell key of the Africa allow-list lookup:
`int(f"{row['WRS Path'].zfill(3)}{row['WRS Row'].zfill(3)}")`. -/
def gridCellKey (path row : String) : Option Nat :=
  pyInt (zfill path 3 ++ zfill row 3)

/-- The row predicate of `get_and_filter_keys_from_files` (the generator's
`if` condition). `some b` means the row is kept (`b = true`) or silently
dropped (`b = false`); `none` means Python raises (only `int(...)` can, on a
non-numeric padded key), aborting the whole run. Mirrors the `and`
short-circuiting of the source. -/
def rowFilter (africa_pathrows : Finset Nat) (row : CsvRow) : Option Bool :=
  match row.satellite with
  | none => some false
  | some sat =>
    if sat = "LANDSAT_4" then some false
    else if sat = "4" then some false
    else match row.dayNightIndicator with
      | none => some false
      | some dn =>
        if pyUpper dn ≠ "DAY" then some false
        else match row.wrsPath, row.wrsRow with
          | some p, some r =>
            match gridCellKey p r with
            | some g => some (g ∈ africa_pathrows)
            | none => none
          | _, _ => some false

/-- `build_path` of `get_and_filter_keys_from_files`, parametrised by
`yearOf`, the model of `convert_str_to_date(...).year` from `deafrica.utils`
(not under `src/`). `none` means Python raises: a field among
`Sensor Identifier`, `Date Acquired`, `Display ID`, `WRS Path`, `WRS Row` is
missing (`KeyError`/`AttributeError` on `None`), or the date fails to parse. -/
def build_path (yearOf : String → Option Nat) (row : CsvRow) : Option String :=
  match row.sensorIdentifier, row.dateAcquired, row.displayId,
        row.wrsPath, row.wrsRow with
  | some si, some da, some di, some p, some r =>
    (yearOf da).map (fun y =>
      "collection02/level-2/standard/" ++ pyReplaceUnderscore (pyLower si) ++ "/" ++
        toString y ++ "/" ++ zfill p 3 ++ "/" ++ zfill r 3 ++ "/" ++ di ++ "/")
  | _, _, _, _, _ => none

/-! ## landsat_gap_report.py — generate_buckets_diff -/

/-- `USGS_S3_BUCKET_PATH = URL("s3://usgs-landsat")`. -/
def USGS_S3_BUCKET_PATH : String := "s3://usgs-landsat"

/-- `landsat_status_report_path = URL(f"s3://{bucket_name}/status-report/")`. -/
def landsat_status_report_path (bucket_name : String) : String :=
  "s3://" ++ bucket_name ++ "/status-report/"

/-- `landsat_status_report_url` — the public https root of the report. -/
def landsat_status_report_url (bucket_name : String) : String :=
  "https://" ++ bucket_name ++ ".s3.af-south-1.amazonaws.com/status-report/"

/-- `environment = "DEV" if "dev" in bucket_name else "PDS"`. -/
def environment (bucket_name : String) : String :=
  if pyContains "dev" bucket_name then "DEV" else "PDS"

/-- The observable side effects of `generate_buckets_diff` this analysis
tracks, in execution order: the single `s3_dump` of the gap report (keyed by
its destination URL and the two scene collections it serialises) and the
final `raise Exception(msg)`. -/
inductive GapEvent where
  | dumpReport (url : String) (orphan missing : Finset String)
  | raiseExc (msg : String)
deriving DecidableEq

/-- Result of one reconciliation run: the two computed scene collections, the
`report_output` string of the summary message, the summary `message`, and the
ordered side-effect trace. -/
structure GapRun where
  missing_scenes : Finset String
  orphaned_scenes : Finset String
  report_output : String
  message : String
  trace : List GapEvent

/-- Shallow embedding of `generate_buckets_diff` (landsat_gap_report.py).
`source_paths` is the filtered bulk-file key set, `dest_paths` the filtered
inventory key set; `update_stac` is the force flag; `date_string` stands for
`datetime.now().strftime("%Y-%m-%d")`. Python builds `missing_scenes` /
`orphaned_scenes` as duplicate-free lists drawn from set differences; they are
kept as `Finset`s here (their iteration order is not specified). -/
def generate_buckets_diff (bucket_name satellite_name date_string : String)
    (update_stac : Bool) (source_paths dest_paths : Finset String) : GapRun :=
  let missing_scenes : Finset String :=
    if update_stac then source_paths
    else (source_paths \ dest_paths).image (fun p => urlJoin USGS_S3_BUCKET_PATH p)
  let orphaned_scenes : Finset String :=
    if update_stac then ∅
    else (dest_paths \ source_paths).image
      (fun p => urlJoin ("s3://" ++ bucket_name) p)
  let any_found : Bool :=
    decide (0 < missing_scenes.card) || decide (0 < orphaned_scenes.card)
  let output_filename : String :=
    if any_found then
      (if update_stac then date_string ++ "_gap_report_update.json"
       else satellite_name ++ "_" ++ date_string ++ "_gap_report.json")
    else "No missing scenes were found"
  let dump_events : List GapEvent :=
    if any_found then
      [.dumpReport (urlJoin (landsat_status_report_path bucket_name) output_filename)
        orphaned_scenes missing_scenes]
    else []
  let report_output : String :=
    if any_found then urlJoin (landsat_status_report_url bucket_name) output_filename
    else output_filename
  let message : String :=
    "*" ++ pyUpper satellite_name ++ " GAP REPORT - " ++
      environment bucket_name ++ "*\n " ++
    "Missing Scenes: " ++ toString missing_scenes.card ++ "\n" ++
    "Orphan Scenes: " ++ toString orphaned_scenes.card ++ "\n" ++
    "Report: " ++ report_output ++ "\n"
  let raise_events : List GapEvent :=
    if !update_stac &&
        (decide (200 < missing_scenes.card) || decide (200 < orphaned_scenes.card))
    then [.raiseExc ("More than 200 scenes were found \n " ++ message)]
    else []
  { missing_scenes := missing_scenes
    orphaned_scenes := orphaned_scenes
    report_output := report_output
    message := message
    trace := dump_events ++ raise_events }

/-! ## chirps.py — download_and_cog_chirps -/

/-- The inputs of one `download_and_cog_chirps` invocation. -/
structure ChirpsParams where
  year : String
  month : String
  day : String
  s3_monthly_dst : String
  s3_daily_dst : String
  overwrite : Bool
  daily : Bool
deriving DecidableEq, Repr

/-- `in_file`: the source file name, per daily/monthly branch. -/
def in_file (p : ChirpsParams) : String :=
  if p.daily then
    "chirps-v2.0." ++ p.year ++ "." ++ p.month ++ "." ++ p.day ++ ".tif.gz"
  else
    "chirps-v2.0." ++ p.year ++ "." ++ p.month ++ ".tif.gz"

/-- `in_href`: the source URL the template produces. -/
def in_href (p : ChirpsParams) : String :=
  if p.daily then
    "https://data.chc.ucsb.edu/products/CHIRPS-2.0/africa_daily/tifs/p05/" ++
      p.year ++ "/" ++ in_file p
  else
    "https://data.chc.ucsb.edu/products/CHIRPS-2.0/africa_monthly/tifs/" ++ in_file p

/-- `out_data`: the destination key of the COG object. -/
def out_data (p : ChirpsParams) : String :=
  if p.daily then
    rstripSlash p.s3_daily_dst ++ "/" ++ p.year ++ "/chirps-v2.0_" ++ p.year ++
      "." ++ p.month ++ "." ++ p.day ++ ".tif"
  else
    rstripSlash p.s3_monthly_dst ++ "/chirps-v2.0_" ++ p.year ++ "." ++ p.month ++ ".tif"

/-- `out_stac`: the destination key of the STAC metadata object. -/
def out_stac (p : ChirpsParams) : String :=
  if p.daily then
    rstripSlash p.s3_daily_dst ++ "/" ++ p.year ++ "/chirps-v2.0_" ++ p.year ++
      "." ++ p.month ++ "." ++ p.day ++ ".stac-item.json"
  else
    rstripSlash p.s3_monthly_dst ++ "/chirps-v2.0_" ++ p.year ++ "." ++ p.month ++
      ".stac-item.json"

/-- The STAC item identifier: `str(odc_uuid("chirps", "2.0", [in_file]))`,
identical in the daily and the monthly branch of the source. `odc_uuid` (from
`odc.index`, external) is an arbitrary deterministic hash of
(namespace, version, sources). -/
def stac_item_id (odc_uuid : String → String → List String → String)
    (p : ChirpsParams) : String :=
  if p.daily then odc_uuid "chirps" "2.0" [in_file p]
  else odc_uuid "chirps" "2.0" [in_file p]

/-- The observable side effects of one `download_and_cog_chirps` run:
the COG conversion and the two `s3_dump` writes, in execution order. -/
inductive ChirpsEvent where
  | cogTranslate (src : String)
  | dumpData (url : String)
  | dumpStac (url : String) (id : String)
deriving DecidableEq

/-- Shallow embedding of `download_and_cog_chirps`. `existing` is the set of
object keys present in storage (`s3_head_object` succeeds exactly on members).
Returns the side-effect trace and the storage contents afterwards. The
early-`return` branch (`not overwrite and s3_head_object(out_stac)`) does
nothing; otherwise the COG is converted and both objects written. -/
def download_and_cog_chirps (odc_uuid : String → String → List String → String)
    (p : ChirpsParams) (existing : Finset String) :
    List ChirpsEvent × Finset String :=
  if p.overwrite = false ∧ out_stac p ∈ existing then
    ([], existing)
  else
    ([.cogTranslate ("/vsigzip//vsicurl/" ++ in_href p),
      .dumpData (out_data p),
      .dumpStac (out_stac p) (stac_item_id odc_uuid p)],
     insert (out_stac p) (insert (out_data p) existing))

/-- The number of COG conversions (`cog_translate` calls) in a trace. -/
def conversions (tr : List ChirpsEvent) : Nat :=
  tr.countP (fun e => match e with | .cogTranslate _ => true | _ => false)

/-! ## Auxiliary definitions for the theorems -/

/-- Whether a reconciliation run ends in the fatal `raise Exception(...)`. -/
def raisesFatal (r : GapRun) : Bool :=
  r.trace.any (fun e => match e with | GapEvent.raiseExc _ => true | _ => false)

/-- A 201-element set of scene keys (the strings `""`, `"a"`, `"aa"`, ...,
`"a" * 200`), used to exercise the over-threshold branch. -/
def thresholdWitnessSet : Finset String :=
  (Finset.range 201).image (fun n => (⟨List.replicate n 'a'⟩ : String))

/-! ## Theorems -/

theorem replicate_a_injective :
    Function.Injective (fun n => (⟨List.replicate n 'a'⟩ : String)) := by
  intro m n h
  have h2 := congrArg (fun s : String => s.data.length) h
  simpa using h2

theorem urlJoin_injective (root : String) :
    Function.Injective (fun p => urlJoin root p) := by
  intro a b h
  simp only [urlJoin] at h
  have h2 := congrArg String.data h
  simp only [String.data_append] at h2
  exact String.ext (List.append_cancel_left h2)

theorem thresholdWitnessSet_card :
    200 < ((thresholdWitnessSet \ ∅).image
      (fun p => urlJoin USGS_S3_BUCKET_PATH p)).card := by
  rw [Finset.sdiff_empty, Finset.card_image_of_injective _ (urlJoin_injective _),
    thresholdWitnessSet, Finset.card_image_of_injective _ replicate_a_injective,
    Finset.card_range]
  omega

/-- Claim C1: without the force flag, the reconciliation produces
`missing = E − O`, each element prefixed with the USGS source bucket root,
and `orphan = O − E`, each element prefixed with the destination bucket root;
on `E = {"a/","b/","c/"}`, `O = {"b/","d/"}` this yields
`missing = {"s3://usgs-landsat/a/", "s3://usgs-landsat/c/"}` and
`orphan = {"s3://<bucket>/d/"}`. -/
theorem gap_report_diff_spec (bucket sat date : String) (E O : Finset String) :
    (∀ x, x ∈ (generate_buckets_diff bucket sat date false E O).missing_scenes ↔
      ∃ p, p ∈ E ∧ p ∉ O ∧ x = urlJoin USGS_S3_BUCKET_PATH p) ∧
    (∀ x, x ∈ (generate_buckets_diff bucket sat date false E O).orphaned_scenes ↔
      ∃ p, p ∈ O ∧ p ∉ E ∧ x = urlJoin ("s3://" ++ bucket) p) ∧
    (generate_buckets_diff "deafrica-landsat" "landsat_8" "2021-01-01" false
        {"a/", "b/", "c/"} {"b/", "d/"}).missing_scenes
      = {"s3://usgs-landsat/a/", "s3://usgs-landsat/c/"} ∧
    (generate_buckets_diff "deafrica-landsat" "landsat_8" "2021-01-01" false
        {"a/", "b/", "c/"} {"b/", "d/"}).orphaned_scenes
      = {"s3://deafrica-landsat/d/"} := by
  refine ⟨fun x => ?_, fun x => ?_, by decide, by decide⟩
  · simp only [generate_buckets_diff, Bool.false_eq_true, if_false, Finset.mem_image,
      Finset.mem_sdiff]
    constructor
    · rintro ⟨p, ⟨hpE, hpO⟩, rfl⟩; exact ⟨p, hpE, hpO, rfl⟩
    · rintro ⟨p, hpE, hpO, rfl⟩; exact ⟨p, ⟨hpE, hpO⟩, rfl⟩
  · simp only [generate_buckets_diff, Bool.false_eq_true, if_false, Finset.mem_image,
      Finset.mem_sdiff]
    constructor
    · rintro ⟨p, ⟨hpO, hpE⟩, rfl⟩; exact ⟨p, hpO, hpE, rfl⟩
    · rintro ⟨p, hpO, hpE, rfl⟩; exact ⟨p, ⟨hpO, hpE⟩, rfl⟩

/-- Claim C2: with the force flag set, the reconciliation skips the set
difference entirely: `missing = E` and `orphan = ∅`, regardless of `O`. -/
theorem gap_report_force_mode (bucket sat date : String) (E O : Finset String) :
    (generate_buckets_diff bucket sat date true E O).missing_scenes = E ∧
    (generate_buckets_diff bucket sat date true E O).orphaned_scenes = ∅ :=
  ⟨rfl, rfl⟩

/-- Claim C3: not in force mode, the run raises the fatal exception (which
carries the human-readable summary) exactly when more than 200 missing or
more than 200 orphaned scenes were found — so 200 does not trigger the fatal
path and 201 does — and in that case the trace shows the report uploaded
before the exception is raised. -/
theorem gap_report_threshold_fatal (bucket sat date : String) (E O : Finset String) :
    (raisesFatal (generate_buckets_diff bucket sat date false E O) = true ↔
      200 < (generate_buckets_diff bucket sat date false E O).missing_scenes.card ∨
      200 < (generate_buckets_diff bucket sat date false E O).orphaned_scenes.card) ∧
    ((generate_buckets_diff bucket sat date false E O).missing_scenes.card ≤ 200 →
     (generate_buckets_diff bucket sat date false E O).orphaned_scenes.card ≤ 200 →
      raisesFatal (generate_buckets_diff bucket sat date false E O) = false) ∧
    (200 < (generate_buckets_diff bucket sat date false E O).missing_scenes.card ∨
     200 < (generate_buckets_diff bucket sat date false E O).orphaned_scenes.card →
      (generate_buckets_diff bucket sat date false E O).trace =
        [GapEvent.dumpReport
           (urlJoin (landsat_status_report_path bucket)
             (sat ++ "_" ++ date ++ "_gap_report.json"))
           (generate_buckets_diff bucket sat date false E O).orphaned_scenes
           (generate_buckets_diff bucket sat date false E O).missing_scenes,
         GapEvent.raiseExc ("More than 200 scenes were found \n " ++
           (generate_buckets_diff bucket sat date false E O).message)]) := by
  simp only [generate_buckets_diff, raisesFatal, Bool.false_eq_true, if_false,
    Bool.not_false, Bool.true_and]
  generalize (Finset.image (fun p => urlJoin USGS_S3_BUCKET_PATH p) (E \ O)) = M
  generalize (Finset.image (fun p => urlJoin ("s3://" ++ bucket) p) (O \ E)) = R
  by_cases h200 : 200 < M.card ∨ 200 < R.card
  · have hne : M.Nonempty ∨ R.Nonempty := by
      rcases h200 with h | h
      · exact Or.inl (Finset.card_pos.mp (by omega))
      · exact Or.inr (Finset.card_pos.mp (by omega))
    have hr : (decide (200 < M.card) || decide (200 < R.card)) = true := by
      rcases h200 with h | h <;> simp [h]
    refine ⟨?_, ?_, ?_⟩
    · simp [hr, h200, hne]
    · intro h1 h2; rcases h200 with h | h <;> omega
    · intro h; simp [hr, hne]
  · have hr : (decide (200 < M.card) || decide (200 < R.card)) = false := by
      push_neg at h200
      simp [Nat.not_lt.mpr h200.1, Nat.not_lt.mpr h200.2]
    refine ⟨?_, fun _ _ => ?_, fun h => absurd h h200⟩
    · simp [hr, h200]
    · simp [hr]

/-- Witness for C3: a 201-element expected set against an empty inventory
exceeds the threshold, and the run uploads the report and then raises. -/
theorem gap_report_threshold_fatal_witness :
    200 < (generate_buckets_diff "deafrica-landsat" "landsat_8" "2021-01-01" false
      thresholdWitnessSet ∅).missing_scenes.card ∧
    (generate_buckets_diff "deafrica-landsat" "landsat_8" "2021-01-01" false
        thresholdWitnessSet ∅).trace =
      [GapEvent.dumpReport
         (urlJoin (landsat_status_report_path "deafrica-landsat")
           ("landsat_8" ++ "_" ++ "2021-01-01" ++ "_gap_report.json"))
         (generate_buckets_diff "deafrica-landsat" "landsat_8" "2021-01-01" false
           thresholdWitnessSet ∅).orphaned_scenes
         (generate_buckets_diff "deafrica-landsat" "landsat_8" "2021-01-01" false
           thresholdWitnessSet ∅).missing_scenes,
       GapEvent.raiseExc ("More than 200 scenes were found \n " ++
         (generate_buckets_diff "deafrica-landsat" "landsat_8" "2021-01-01" false
           thresholdWitnessSet ∅).message)] := by
  have hc : 200 < (generate_buckets_diff "deafrica-landsat" "landsat_8" "2021-01-01" false
      thresholdWitnessSet ∅).missing_scenes.card := thresholdWitnessSet_card
  exact ⟨hc, (gap_report_threshold_fatal "deafrica-landsat" "landsat_8" "2021-01-01"
    thresholdWitnessSet ∅).2.2 (Or.inl hc)⟩

/-- Claim C4: when both computed collections are empty, nothing is written to
storage (empty trace, so in particular no report dump and no raise) and the
report slot of the summary is the literal placeholder text. -/
theorem gap_report_empty_diff (bucket sat date : String) (force : Bool)
    (E O : Finset String)
    (hm : (generate_buckets_diff bucket sat date force E O).missing_scenes = ∅)
    (ho : (generate_buckets_diff bucket sat date force E O).orphaned_scenes = ∅) :
    (generate_buckets_diff bucket sat date force E O).trace = [] ∧
    (generate_buckets_diff bucket sat date force E O).report_output
      = "No missing scenes were found" := by
  simp only [generate_buckets_diff] at hm ho ⊢
  rw [hm, ho]
  simp

/-- Witness for C4: the run on two empty sets writes nothing and reports the
placeholder text. -/
theorem gap_report_empty_diff_witness :
    (generate_buckets_diff "deafrica-landsat" "landsat_8" "2021-01-01" false
      ∅ ∅).missing_scenes = ∅ ∧
    (generate_buckets_diff "deafrica-landsat" "landsat_8" "2021-01-01" false
      ∅ ∅).trace = [] ∧
    (generate_buckets_diff "deafrica-landsat" "landsat_8" "2021-01-01" false
      ∅ ∅).report_output = "No missing scenes were found" :=
  ⟨by decide,
   gap_report_empty_diff "deafrica-landsat" "landsat_8" "2021-01-01" false ∅ ∅
     (by decide) (by decide)⟩

/-- Claim C5: a row that passes the generation and day/night checks passes the
geographic filter iff the integer obtained by concatenating the zero-padded
path and row belongs to the allow-list; path `"3"`, row `"45"` is looked up as
`3045` (and retained iff `3045` is in the allow-list), and path `"12"`,
row `"7"` is looked up as `12007`. -/
theorem grid_cell_filter_spec (pathrows : Finset Nat) (row : CsvRow)
    (sat dn p r : String)
    (hsat : row.satellite = some sat) (h4 : sat ≠ "LANDSAT_4") (h4n : sat ≠ "4")
    (hdn : row.dayNightIndicator = some dn) (hday : pyUpper dn = "DAY")
    (hp : row.wrsPath = some p) (hr : row.wrsRow = some r) :
    (rowFilter pathrows row =
      (gridCellKey p r).map (fun g => decide (g ∈ pathrows))) ∧
    gridCellKey "3" "45" = some 3045 ∧
    gridCellKey "12" "7" = some 12007 ∧
    (∀ prs : Finset Nat,
      rowFilter prs ⟨some "8", some "DAY", some "3", some "45", none, none, none⟩
        = some true ↔ 3045 ∈ prs) := by
  refine ⟨?_, by decide, by decide, fun prs => ?_⟩
  · simp only [rowFilter, hsat, hdn, hp, hr, if_neg h4, if_neg h4n, hday]
    simp only [ne_eq, not_true_eq_false, if_false]
    cases gridCellKey p r <;> simp
  · have hkey : gridCellKey "3" "45" = some 3045 := by decide
    have hup : pyUpper "DAY" = "DAY" := by decide
    simp [rowFilter, hkey, hup]

/-- Witness for C5: a daytime Landsat 8 row with path `"3"`, row `"45"` is
retained under the allow-list `{3045}`. -/
theorem grid_cell_filter_spec_witness :
    (rowFilter {3045} ⟨some "8", some "day", some "3", some "45", none, none, none⟩
      = (gridCellKey "3" "45").map (fun g => decide (g ∈ ({3045} : Finset Nat)))) ∧
    rowFilter {3045} ⟨some "8", some "day", some "3", some "45", none, none, none⟩
      = some true :=
  ⟨(grid_cell_filter_spec {3045}
      ⟨some "8", some "day", some "3", some "45", none, none, none⟩
      "8" "day" "3" "45" rfl (by decide) (by decide) rfl (by decide) rfl rfl).1,
   by decide⟩

/-- The padded key always has length `max 3 (component length)` per component:
`zfill` never truncates. -/
theorem zfill_length (s : String) (w : Nat) :
    (zfill s w).length = max w s.length := by
  rcases s with ⟨l⟩
  cases l with
  | nil => simp [zfill, String.length]
  | cons c rest =>
    simp only [zfill]
    split_ifs with h
    · simp only [String.length, List.length_cons, List.length_append,
        List.length_replicate]
      omega
    · simp only [String.length, List.length_cons, List.length_append,
        List.length_replicate]
      omega

/-- Counterexample to claim C6 as stated: for path `"1234"`, row `"45"` the
padded concatenation has 7 characters, not 6 — `str.zfill(3)` pads but never
truncates, so the allow-list key is `1234045`, a 7-digit integer. -/
theorem grid_cell_key_six_digits_counterexample :
    (zfill "1234" 3 ++ zfill "45" 3).length ≠ 6 ∧
    gridCellKey "1234" "45" = some 1234045 := by
  constructor <;> decide

/-- Claim C6 (amended): for every WRS path and row string of at most 3
characters, the concatenation of the zero-padded components — the string whose
integer value is the allow-list membership key — has exactly 6 characters. -/
theorem grid_cell_key_length_of_le_three (p r : String)
    (hp : p.length ≤ 3) (hr : r.length ≤ 3) :
    (zfill p 3 ++ zfill r 3).length = 6 := by
  have h1 := zfill_length p 3
  have h2 := zfill_length r 3
  have h3 : (zfill p 3 ++ zfill r 3).length
      = (zfill p 3).length + (zfill r 3).length := String.length_append _ _
  omega

/-- Witness for the amended C6 at path `"3"`, row `"45"`. -/
theorem grid_cell_key_length_of_le_three_witness :
    ("3" : String).length ≤ 3 ∧ ("45" : String).length ≤ 3 ∧
    (zfill "3" 3 ++ zfill "45" 3).length = 6 :=
  ⟨by decide, by decide, grid_cell_key_length_of_le_three "3" "45" (by decide) (by decide)⟩

/-- Claim C7: the expected-set filter drops rows whose Satellite field is
`"LANDSAT_4"` or `"4"`, keeps only rows whose day/night indicator matches
`"DAY"` case-insensitively, and silently drops (returns `some false`, never an
error) any row missing the Satellite, Day/Night Indicator, WRS Path or WRS Row
field. -/
theorem expected_set_row_filter_spec (pathrows : Finset Nat) (row : CsvRow) :
    ((row.satellite = some "LANDSAT_4" ∨ row.satellite = some "4") →
      rowFilter pathrows row = some false) ∧
    (∀ sat dn, row.satellite = some sat → sat ≠ "LANDSAT_4" → sat ≠ "4" →
      row.dayNightIndicator = some dn → pyUpper dn ≠ "DAY" →
      rowFilter pathrows row = some false) ∧
    ((row.satellite = none ∨ row.dayNightIndicator = none ∨
      row.wrsPath = none ∨ row.wrsRow = none) →
      rowFilter pathrows row = some false) ∧
    (rowFilter pathrows row = some true →
      ∃ sat dn p r, row.satellite = some sat ∧ sat ≠ "LANDSAT_4" ∧ sat ≠ "4" ∧
        row.dayNightIndicator = some dn ∧ pyUpper dn = "DAY" ∧
        row.wrsPath = some p ∧ row.wrsRow = some r) := by
  obtain ⟨s, d, wp, wr, si, da, di⟩ := row
  refine ⟨?_, ?_, ?_, ?_⟩
  · rintro (rfl | rfl) <;> simp [rowFilter]
  · rintro sat dn rfl h4 h4n rfl hday
    simp [rowFilter, h4, h4n, hday]
  · rintro (rfl | rfl | rfl | rfl)
    · simp [rowFilter]
    · rcases s with _ | sat
      · simp [rowFilter]
      · simp only [rowFilter]
        split_ifs <;> rfl
    · rcases s with _ | sat
      · simp [rowFilter]
      · rcases d with _ | dn
        · simp only [rowFilter]
          split_ifs <;> rfl
        · simp only [rowFilter]
          split_ifs <;> rfl
    · rcases s with _ | sat
      · simp [rowFilter]
      · rcases d with _ | dn
        · simp only [rowFilter]
          split_ifs <;> rfl
        · rcases wp with _ | pp
          · simp only [rowFilter]
            split_ifs <;> rfl
          · simp only [rowFilter]
            split_ifs <;> rfl
  · intro htrue
    rcases s with _ | sat
    · simp [rowFilter] at htrue
    · rcases eq_or_ne sat "LANDSAT_4" with h4 | h4
      · simp [rowFilter, h4] at htrue
      rcases eq_or_ne sat "4" with h4n | h4n
      · simp [rowFilter, h4, h4n] at htrue
      rcases d with _ | dn
      · simp [rowFilter, h4, h4n] at htrue
      rcases eq_or_ne (pyUpper dn) "DAY" with hday | hday
      swap
      · simp [rowFilter, h4, h4n, hday] at htrue
      rcases wp with _ | pp
      · simp [rowFilter, h4, h4n, hday] at htrue
      rcases wr with _ | rr
      · simp [rowFilter, h4, h4n, hday] at htrue
      exact ⟨sat, dn, pp, rr, rfl, h4, h4n, rfl, hday, rfl, rfl⟩

/-- Witness for C7: a `LANDSAT_4` row is dropped, and a row missing its WRS
Path field is silently dropped too. -/
theorem expected_set_row_filter_spec_witness :
    rowFilter ∅ ⟨some "LANDSAT_4", some "DAY", some "165", some "52",
      none, none, none⟩ = some false ∧
    rowFilter ∅ ⟨some "8", some "DAY", none, some "52",
      none, none, none⟩ = some false :=
  ⟨(expected_set_row_filter_spec ∅ _).1 (Or.inl rfl),
   (expected_set_row_filter_spec ∅ _).2.2.1 (Or.inr (Or.inr (Or.inl rfl)))⟩

/-- Claim C8: with `overwrite = False`, a run whose destination STAC key
already exists returns immediately with no side effects and no state change;
starting from a state without that key, the first run performs exactly one
COG conversion and the second identical run is a no-op. -/
theorem chirps_overwrite_false_idempotent
    (h : String → String → List String → String)
    (p : ChirpsParams) (s : Finset String) (hov : p.overwrite = false) :
    (out_stac p ∈ s → download_and_cog_chirps h p s = ([], s)) ∧
    (out_stac p ∉ s →
      conversions (download_and_cog_chirps h p s).1 = 1 ∧
      download_and_cog_chirps h p (download_and_cog_chirps h p s).2 =
        ([], (download_and_cog_chirps h p s).2)) := by
  constructor
  · intro hmem
    rw [download_and_cog_chirps, if_pos ⟨hov, hmem⟩]
  · intro hmem
    have hcond : ¬ (p.overwrite = false ∧ out_stac p ∈ s) := fun hc => hmem hc.2
    rw [download_and_cog_chirps, if_neg hcond]
    refine ⟨rfl, ?_⟩
    rw [download_and_cog_chirps, if_pos ⟨hov, Finset.mem_insert_self _ _⟩]

/-- Witness for C8: two runs on January 2020 starting from empty storage —
one conversion happens and the second run changes nothing. -/
theorem chirps_overwrite_false_idempotent_witness :
    (ChirpsParams.mk "2020" "01" "01" "s3://monthly" "s3://daily" false false).overwrite
        = false ∧
    out_stac (ChirpsParams.mk "2020" "01" "01" "s3://monthly" "s3://daily" false false)
        ∉ (∅ : Finset String) ∧
    conversions (download_and_cog_chirps (fun _ _ _ => "uuid")
      (ChirpsParams.mk "2020" "01" "01" "s3://monthly" "s3://daily" false false) ∅).1
        = 1 ∧
    download_and_cog_chirps (fun _ _ _ => "uuid")
      (ChirpsParams.mk "2020" "01" "01" "s3://monthly" "s3://daily" false false)
      (download_and_cog_chirps (fun _ _ _ => "uuid")
        (ChirpsParams.mk "2020" "01" "01" "s3://monthly" "s3://daily" false false) ∅).2 =
      ([], (download_and_cog_chirps (fun _ _ _ => "uuid")
        (ChirpsParams.mk "2020" "01" "01" "s3://monthly" "s3://daily" false false) ∅).2) := by
  refine ⟨rfl, by simp, ?_, ?_⟩
  · exact ((chirps_overwrite_false_idempotent (fun _ _ _ => "uuid") _ ∅ rfl).2 (by simp)).1
  · exact ((chirps_overwrite_false_idempotent (fun _ _ _ => "uuid") _ ∅ rfl).2 (by simp)).2

/-- Claim C9: the STAC item identifier is the hash of the fixed namespace
`"chirps"`, the version `"2.0"` and the source filename, and two runs agreeing
on (year, month, day, granularity) get the same identifier whatever their
other parameters. -/
theorem chirps_stac_id_deterministic
    (h : String → String → List String → String) (p q : ChirpsParams)
    (hy : p.year = q.year) (hm : p.month = q.month) (hd : p.day = q.day)
    (hdl : p.daily = q.daily) :
    stac_item_id h p = h "chirps" "2.0" [in_file p] ∧
    stac_item_id h p = stac_item_id h q := by
  have hf : in_file p = in_file q := by
    unfold in_file; rw [hy, hm, hd, hdl]
  have h1 : ∀ t : ChirpsParams, stac_item_id h t = h "chirps" "2.0" [in_file t] := by
    intro t; unfold stac_item_id; split <;> rfl
  exact ⟨h1 p, by rw [h1 p, h1 q, hf]⟩

/-- Witness for C9: two daily runs for 1999-02-03 with different destinations
and overwrite flags produce the same identifier, the hash of namespace,
version and filename. -/
theorem chirps_stac_id_deterministic_witness :
    (ChirpsParams.mk "1999" "02" "03" "s3://m" "s3://d" false true).year
        = (ChirpsParams.mk "1999" "02" "03" "s3://other" "s3://else" true true).year ∧
    stac_item_id (fun ns v srcs => ns ++ "/" ++ v ++ "/" ++ String.join srcs)
        (ChirpsParams.mk "1999" "02" "03" "s3://m" "s3://d" false true)
      = (fun ns v srcs => ns ++ "/" ++ v ++ "/" ++ String.join srcs) "chirps" "2.0"
          [in_file (ChirpsParams.mk "1999" "02" "03" "s3://m" "s3://d" false true)] ∧
    stac_item_id (fun ns v srcs => ns ++ "/" ++ v ++ "/" ++ String.join srcs)
        (ChirpsParams.mk "1999" "02" "03" "s3://m" "s3://d" false true)
      = stac_item_id (fun ns v srcs => ns ++ "/" ++ v ++ "/" ++ String.join srcs)
          (ChirpsParams.mk "1999" "02" "03" "s3://other" "s3://else" true true) := by
  refine ⟨rfl, ?_, ?_⟩
  · exact (chirps_stac_id_deterministic _
      (ChirpsParams.mk "1999" "02" "03" "s3://m" "s3://d" false true)
      (ChirpsParams.mk "1999" "02" "03" "s3://other" "s3://else" true true)
      rfl rfl rfl rfl).1
  · exact (chirps_stac_id_deterministic _ _ _ rfl rfl rfl rfl).2

/-- Claim C10: rows that pass all three expected-set filters but lack the
Sensor Identifier, Date Acquired or Display ID field make `build_path` raise
(modelled as `none`) instead of being dropped, whatever the date parser does:
those fields are read without a presence check. -/
theorem filtered_row_build_path_error :
    ∀ yearOf : String → Option Nat,
      (rowFilter {165052} ⟨some "8", some "DAY", some "165", some "52",
          none, some "2020-01-01", some "LC08_L2SP_165052_20200101_02_T1"⟩
            = some true ∧
        build_path yearOf ⟨some "8", some "DAY", some "165", some "52",
          none, some "2020-01-01", some "LC08_L2SP_165052_20200101_02_T1"⟩
            = none) ∧
      (rowFilter {165052} ⟨some "8", some "DAY", some "165", some "52",
          some "OLI_TIRS", none, some "LC08_L2SP_165052_20200101_02_T1"⟩
            = some true ∧
        build_path yearOf ⟨some "8", some "DAY", some "165", some "52",
          some "OLI_TIRS", none, some "LC08_L2SP_165052_20200101_02_T1"⟩
            = none) ∧
      (rowFilter {165052} ⟨some "8", some "DAY", some "165", some "52",
          some "OLI_TIRS", some "2020-01-01", none⟩ = some true ∧
        build_path yearOf ⟨some "8", some "DAY", some "165", some "52",
          some "OLI_TIRS", some "2020-01-01", none⟩ = none) :=
  fun _ => ⟨⟨by decide, rfl⟩, ⟨by decide, rfl⟩, ⟨by decide, rfl⟩⟩

end DeAfrica
